import Mathlib

/-!
Shallow embedding of the `bnb-fly-proxy` repository (src/index.js and
src/unnamed/part_000, two near-duplicate Express entry points) and proofs
about the claims of its specification.

Modelling conventions:
* JavaScript numbers are modelled as exact rationals; `NaN` is modelled as
  `none` in `Option ℚ`.  (Binary floating-point rounding is not modelled;
  none of the verified properties depends on it.)
* JavaScript strings are modelled as `String` / `List Char`.
* `new Date(str).getTime()` is modelled by `jsDateParse`, following the
  ECMA-262 Date Time String Format `YYYY-MM-DDTHH:MM:SS` with a `Z` or
  `±HH:MM` offset, rejecting calendar-invalid dates (as V8 does for ISO
  strings).  Legacy non-ISO parser fallbacks are not modelled.
* `crypto.createHmac("sha256", secret).update(msg).digest("hex")` is kept
  abstract: handlers take the digest function `hmacF` as a parameter and
  the theorems speak about which message it is applied to.
-/

/-! ## Characters and decimal digits -/

/-- Is `c` an ASCII decimal digit? -/
def isDig (c : Char) : Bool := 48 ≤ c.toNat && c.toNat ≤ 57

/-- Numeric value of an ASCII digit character. -/
def digitVal (c : Char) : Nat := c.toNat - 48

/-- The ASCII character of a decimal digit (argument taken mod 10). -/
def digitChar10 (n : Nat) : Char :=
  match n % 10 with
  | 0 => '0' | 1 => '1' | 2 => '2' | 3 => '3' | 4 => '4'
  | 5 => '5' | 6 => '6' | 7 => '7' | 8 => '8' | _ => '9'

/-- Structural helper for `natDigits`; the first argument is a fuel bound
(any fuel above the digit count yields the same digits). -/
def natDigitsAux : Nat → Nat → List Char
  | 0, _ => []
  | f + 1, n =>
    if n < 10 then [digitChar10 n]
    else natDigitsAux f (n / 10) ++ [digitChar10 (n % 10)]

/-- Decimal digit characters of a natural number, most significant first:
the model of JavaScript `String(n)` for a nonnegative integer. -/
def natDigits (n : Nat) : List Char := natDigitsAux (n + 1) n

/-- Model of JavaScript `String(i)` for an integer. -/
def intDigits (i : Int) : List Char :=
  if i < 0 then '-' :: natDigits i.natAbs else natDigits i.toNat

/-- Model of `String(n).padStart(2, "0")`. -/
def padTwo (n : Nat) : List Char :=
  let ds := natDigits n
  if ds.length < 2 then '0' :: ds else ds

/-- Value of a list of decimal digit characters, most significant first. -/
def decVal (ds : List Char) : Nat :=
  ds.foldl (fun a c => a * 10 + digitVal c) 0

/-- Does `needle` occur at the head of `hay`? -/
def startsWith : List Char → List Char → Bool
  | [], _ => true
  | _ :: _, [] => false
  | a :: n, b :: h => a == b && startsWith n h

/-- Does `needle` occur anywhere inside `hay`? -/
def hasSub (hay needle : List Char) : Bool :=
  match hay with
  | [] => needle.isEmpty
  | _ :: t => startsWith needle hay || hasSub t needle

/-! ## JSON values (results of `JSON.parse` / bodies built by the proxy) -/

/-- A JSON value.  `num none` models a `NaN` number (which JSON.parse never
produces but the proxy's own computations can). -/
inductive Json where
  | null : Json
  | bool : Bool → Json
  | num : Option ℚ → Json
  | str : String → Json
  | arr : List Json → Json
  | obj : List (String × Json) → Json

/-- First binding of key `k` in an object's field list. -/
def lookupField : List (String × Json) → String → Option Json
  | [], _ => none
  | (k', v) :: t, k => if k' = k then some v else lookupField t k

/-- Property access `j.k`; `none` models `undefined`.  Property access on
`null`/`undefined` (a TypeError in JavaScript) is not modelled: theorems
about record lists restrict the elements to objects. -/
def Json.get (j : Json) (k : String) : Option Json :=
  match j with
  | Json.obj fs => lookupField fs k
  | _ => none

/-- Is the value an array? (model of `Array.isArray`). -/
def Json.isArr : Json → Bool
  | Json.arr _ => true
  | _ => false

/-- JavaScript truthiness of a possibly-undefined value. -/
def jsTruthy : Option Json → Bool
  | none => false
  | some Json.null => false
  | some (Json.bool b) => b
  | some (Json.num none) => false
  | some (Json.num (some q)) => !(q == 0)
  | some (Json.str s) => !(s == "")
  | some (Json.arr _) => true
  | some (Json.obj _) => true

/-! ## `Number(string)` -/

/-- Whitespace trimmed by `Number(string)` (common cases). -/
def isSpaceChar (c : Char) : Bool :=
  c == ' ' || c == '\t' || c == '\n' || c == '\r'

/-- Trim leading and trailing whitespace. -/
def trimChars (cs : List Char) : List Char :=
  ((cs.dropWhile isSpaceChar).reverse.dropWhile isSpaceChar).reverse

/-- Parse a whole exponent suffix (`e`/`E`, optional sign, digits) into its
integer value; the empty suffix is exponent `0`. -/
def parseExpParts (cs : List Char) : Option Int :=
  match cs with
  | [] => some 0
  | c :: rest =>
    if c = 'e' ∨ c = 'E' then
      let sd : Int × List Char :=
        match rest with
        | c2 :: r2 =>
          if c2 = '+' then (1, r2) else if c2 = '-' then (-1, r2) else (1, rest)
        | [] => (1, rest)
      if sd.2 ≠ [] ∧ sd.2.all isDig then some (sd.1 * (decVal sd.2 : Int))
      else none
    else none

/-- Parse an unsigned decimal literal (`digits`, `digits.digits`, `.digits`,
`digits.`) with optional exponent, as the tuple
(integer-part value, fraction value, fraction length, exponent);
the whole input must be consumed. -/
def parseDecParts (cs : List Char) : Option (Nat × Nat × Nat × Int) :=
  let ip := cs.takeWhile isDig
  let r1 := cs.dropWhile isDig
  match r1 with
  | [] => if ip = [] then none else some (decVal ip, 0, 0, 0)
  | c :: r2 =>
    if c = '.' then
      let fp := r2.takeWhile isDig
      let r3 := r2.dropWhile isDig
      if ip = [] ∧ fp = [] then none
      else (parseExpParts r3).map (fun e => (decVal ip, decVal fp, fp.length, e))
    else if ip = [] then none
    else (parseExpParts r1).map (fun e => (decVal ip, 0, 0, e))

/-- Sign and decimal parts of a trimmed numeric string; the empty string
denotes `0`. -/
def jsNumParse (cs : List Char) : Option (Int × Nat × Nat × Nat × Int) :=
  match cs with
  | [] => some (1, 0, 0, 0, 0)
  | c :: rest =>
    if c = '+' then (parseDecParts rest).map (fun p => (1, p))
    else if c = '-' then (parseDecParts rest).map (fun p => (-1, p))
    else (parseDecParts (c :: rest)).map (fun p => (1, p))

/-- The rational denoted by a sign and decimal parts. -/
def ratOfParts : Int × Nat × Nat × Nat × Int → ℚ
  | (sgn, ip, fp, fl, e) =>
    (sgn : ℚ) * ((ip : ℚ) + (fp : ℚ) / (10 : ℚ) ^ fl) * (10 : ℚ) ^ e

/-- Model of `Number(s)` for a string `s`: `none` is `NaN`.  Non-decimal
numeric literals (`Infinity`, hex/octal/binary) are outside the claims'
scope and are mapped to `none`. -/
def jsStringToNumber (s : String) : Option ℚ :=
  (jsNumParse (trimChars s.data)).map ratOfParts

/-- Model of `Number(v)` for a JSON value.  `Number` of an array (which
JavaScript converts through its string join) is not modelled; theorems
restrict the relevant fields to scalar values. -/
def jsToNumber : Json → Option ℚ
  | Json.null => some 0
  | Json.bool b => some (if b then 1 else 0)
  | Json.num q => q
  | Json.str s => jsStringToNumber s
  | Json.arr _ => none
  | Json.obj _ => none

/-- Model of `Number(v)` where `v` may be `undefined` (`Number(undefined)`
is `NaN`). -/
def jsToNumberU : Option Json → Option ℚ
  | none => none
  | some j => jsToNumber j

/-- NaN-propagating addition of JavaScript numbers. -/
def jsAdd (a b : Option ℚ) : Option ℚ :=
  match a, b with
  | some x, some y => some (x + y)
  | _, _ => none

/-- Model of `Number(x.toFixed(2))` on a non-NaN value: round to two decimal
places, ties toward positive infinity (ECMA `toFixed` picks the larger
candidate), over exact rationals. -/
def jsRound2 (q : ℚ) : ℚ := (⌊q * 100 + 1 / 2⌋ : ℚ) / 100

/-- Model of `Number(x.toFixed(2))` including the NaN case. -/
def toFixed2Opt (a : Option ℚ) : Option ℚ := a.map jsRound2

/-! ## Calendar arithmetic (proleptic Gregorian, as ECMAScript `MakeDay`) -/

/-- Gregorian leap-year test. -/
def isLeap (y : Nat) : Bool := (y % 4 == 0 && y % 100 != 0) || y % 400 == 0

/-- Number of days in month `m` (1-based) of year `y`. -/
def daysInMonth (y m : Nat) : Nat :=
  match m with
  | 1 => 31 | 2 => if isLeap y then 29 else 28 | 3 => 31 | 4 => 30
  | 5 => 31 | 6 => 30 | 7 => 31 | 8 => 31
  | 9 => 30 | 10 => 31 | 11 => 30 | _ => 31

/-- Julian day number of `y-m-d` (valid for the four-digit years that the
date parser accepts). -/
def jdn (y m d : Nat) : Nat :=
  let a := (14 - m) / 12
  let y' := y + 4800 - a
  let m' := m + 12 * a - 3
  d + (153 * m' + 2) / 5 + 365 * y' + y' / 4 - y' / 100 + y' / 400 - 32045

/-- Days since the Unix epoch 1970-01-01 of the civil date `y-m-d`. -/
def daysSinceEpoch (y m d : Nat) : Int := (jdn y m d : Int) - 2440588

/-- UTC epoch milliseconds of `y-m-d h:mi:s` read as a UTC instant. -/
def epochMs (y m d h mi s : Nat) : Int :=
  (daysSinceEpoch y m d * 86400 + (h * 3600 + mi * 60 + s : Nat)) * 1000

/-! ## The ECMAScript date-string parser used by `new Date(...)` -/

/-- Parse a leading `YYYY-MM-DD` (calendar-validated) and return the
remaining characters. -/
def parseDate10 : List Char → Option ((Nat × Nat × Nat) × List Char)
  | y1 :: y2 :: y3 :: y4 :: c1 :: m1 :: m2 :: c2 :: d1 :: d2 :: rest =>
    if c1 = '-' ∧ c2 = '-' ∧
       (isDig y1 && isDig y2 && isDig y3 && isDig y4 &&
        isDig m1 && isDig m2 && isDig d1 && isDig d2) = true then
      let y := ((digitVal y1 * 10 + digitVal y2) * 10 + digitVal y3) * 10 + digitVal y4
      let mo := digitVal m1 * 10 + digitVal m2
      let d := digitVal d1 * 10 + digitVal d2
      if 1 ≤ mo ∧ mo ≤ 12 ∧ 1 ≤ d ∧ d ≤ daysInMonth y mo then
        some ((y, mo, d), rest)
      else none
    else none
  | _ => none

/-- Parse a leading `HH:MM:SS` and return the remaining characters. -/
def parseTimePart : List Char → Option ((Nat × Nat × Nat) × List Char)
  | h1 :: h2 :: c1 :: i1 :: i2 :: c2 :: s1 :: s2 :: rest =>
    if c1 = ':' ∧ c2 = ':' ∧
       (isDig h1 && isDig h2 && isDig i1 && isDig i2 && isDig s1 && isDig s2) = true then
      let h := digitVal h1 * 10 + digitVal h2
      let mi := digitVal i1 * 10 + digitVal i2
      let s := digitVal s1 * 10 + digitVal s2
      if h ≤ 23 ∧ mi ≤ 59 ∧ s ≤ 59 then some ((h, mi, s), rest) else none
    else none
  | _ => none

/-- Parse a whole timezone-offset suffix: `Z` or `±HH:MM`, in milliseconds. -/
def parseOffset : List Char → Option Int
  | [c] => if c = 'Z' then some 0 else none
  | [sg, a1, a2, c, b1, b2] =>
    if c = ':' ∧ (sg = '+' ∨ sg = '-') ∧
       (isDig a1 && isDig a2 && isDig b1 && isDig b2) = true then
      let hh := digitVal a1 * 10 + digitVal a2
      let mm := digitVal b1 * 10 + digitVal b2
      if hh ≤ 23 ∧ mm ≤ 59 then
        some ((if sg = '+' then 1 else -1) * ((hh * 3600 + mm * 60 : Nat) : Int) * 1000)
      else none
    else none
  | _ => none

/-- Model of `new Date(cs).getTime()` for a full ISO date-time string with an
explicit offset; `none` models `NaN` (an Invalid Date). -/
def jsDateParse (cs : List Char) : Option Int :=
  match parseDate10 cs with
  | some ((y, mo, d), rest) =>
    match rest with
    | c :: rest2 =>
      if c = 'T' then
        match parseTimePart rest2 with
        | some ((h, mi, s), off) =>
          match parseOffset off with
          | some offMs => some (epochMs y mo d h mi s - offMs)
          | none => none
        | none => none
      else none
    | [] => none
  | none => none

/-- Does the whole string have the form of a calendar-valid `YYYY-MM-DD`?
Returns the parsed year, month and day. -/
def validYMD (s : String) : Option (Nat × Nat × Nat) :=
  match parseDate10 s.data with
  | some (v, []) => some v
  | _ => none

/-! ## The Day-Range Resolvers -/

/-- A `{start, end}` pair of UTC epoch milliseconds; `none` models `NaN`.
The source calls the second field `end` (a Lean keyword). -/
structure DateRange where
  start : Option Int
  endMs : Option Int
deriving DecidableEq, Repr

/-- Value `Math.floor(|tz|)` of the configured offset hours (source `hh`). -/
def tzHH (tz : ℚ) : Nat := ⌊|tz|⌋.toNat

/-- Value `Math.round((|tz| - Math.floor(|tz|)) * 60)` (source `mm`);
`Math.round x = Math.floor (x + 1/2)`. -/
def tzMM (tz : ℚ) : Nat :=
  ⌊(|tz| - (⌊|tz|⌋ : ℚ)) * 60 + 1 / 2⌋.toNat

/-- The signed offset string `±HH:MM` built by `getDayRange`. -/
def offsetChars (tz : ℚ) : List Char :=
  (if 0 ≤ tz then '+' else '-') :: (padTwo (tzHH tz) ++ ':' :: padTwo (tzMM tz))

/-- The offset in milliseconds that `offsetChars tz` denotes. -/
def jsOffsetMs (tz : ℚ) : Int :=
  (if 0 ≤ tz then 1 else -1) * ((tzHH tz * 3600 + tzMM tz * 60 : Nat) : Int) * 1000

/-- Function `getDayRange` of `src/unnamed/part_000`: append `T00:00:00`/`T23:59:59`
and the configured signed offset string, then parse each ISO string. -/
def getDayRange (tz : ℚ) (dateStr : String) : DateRange :=
  ⟨jsDateParse (dateStr.data ++ 'T' :: ("00:00:00".data ++ offsetChars tz)),
   jsDateParse (dateStr.data ++ 'T' :: ("23:59:59".data ++ offsetChars tz))⟩

/-- Function `getDayRangeUTC` of `src/index.js`: append `T00:00:00Z`/`T23:59:59Z`
and parse each ISO string (always UTC, no configured offset). -/
def getDayRangeUTC (dateStr : String) : DateRange :=
  ⟨jsDateParse (dateStr.data ++ 'T' :: ("00:00:00".data ++ ['Z'])),
   jsDateParse (dateStr.data ++ 'T' :: ("23:59:59".data ++ ['Z']))⟩

/-! ## Signed query strings -/

/-- Interpolation of a possibly-NaN number into a template string. -/
def numChars : Option Int → List Char
  | none => "NaN".data
  | some i => intDigits i

/-- Query string of the balance endpoints:
`recvWindow=5000&timestamp=${Date.now()}`. -/
def balanceQs (now : Nat) : List Char :=
  "recvWindow=5000&timestamp=".data ++ natDigits now

/-- Query string of each hedge-volume trade call:
`startTime=${start}&endTime=${end}&timestamp=${Date.now()}`. -/
def hedgeQs (r : DateRange) (now : Nat) : List Char :=
  "startTime=".data ++ numChars r.start ++ "&endTime=".data ++ numChars r.endMs ++
    "&timestamp=".data ++ natDigits now

/-- Serialization of `key=value` pairs into a query string. -/
def serializeQs : List (String × List Char) → List Char
  | [] => []
  | [(k, v)] => k.data ++ '=' :: v
  | (k, v) :: rest => k.data ++ '=' :: v ++ '&' :: serializeQs rest

/-- Parameter list of the balance query string. -/
def balancePairs (now : Nat) : List (String × List Char) :=
  [("recvWindow", "5000".data), ("timestamp", natDigits now)]

/-- Parameter list of a hedge-volume trade query string. -/
def hedgePairs (r : DateRange) (now : Nat) : List (String × List Char) :=
  [("startTime", numChars r.start), ("endTime", numChars r.endMs),
   ("timestamp", natDigits now)]

/-- The full query string actually sent for a signed call:
the signed query string with `&signature=<digest>` appended. -/
def signedQuery (hmacF : List Char → String → String) (secret : String)
    (qs : List Char) : List Char :=
  qs ++ "&signature=".data ++ (hmacF qs secret).data

/-! ## HTTP model -/

/-- Process configuration, read from the environment at startup. -/
structure Config where
  proxyApiKey : String
  binanceApiKey : String
  binanceApiSecret : String
  tzOffsetHours : ℚ

/-- The parts of an inbound request the handlers look at. -/
structure Req where
  headerXProxyKey : Option String
  queryKey : Option String
  querySymbol : Option String
  queryDate : Option String

/-- An upstream (fetch) response, with its body already JSON-parsed. -/
structure UResp where
  status : Nat
  body : Json

/-- Property `Response.ok`: status in the inclusive range 200 to 299. -/
def UResp.ok (u : UResp) : Bool := 200 ≤ u.status && u.status ≤ 299

/-- A response sent back to the original caller. -/
structure HResp where
  status : Nat
  body : Json

/-- A record of one outbound upstream call. -/
structure Call where
  base : String
  sentQuery : List Char
  apiKeyHeader : Option String

/-- The caller-supplied token:
`req.header("X-Proxy-Key") || req.query.key` (an empty header is falsy
and falls through to the query parameter). -/
def effectiveKey (r : Req) : Option String :=
  match r.headerXProxyKey with
  | some h => if h = "" then r.queryKey else some h
  | none => r.queryKey

/-- Function `checkAuth`: authorized iff the configured proxy key is non-empty and
the caller-supplied token strictly equals it. -/
def checkAuth (cfg : Config) (r : Req) : Bool :=
  !(cfg.proxyApiKey == "") && (effectiveKey r == some cfg.proxyApiKey)

/-- The 401 response sent by `checkAuth`. -/
def unauthorizedResp : HResp := ⟨401, Json.obj [("error", Json.str "Unauthorized")]⟩

/-- The 400 response for absent exchange credentials. -/
def missingKeysResp : HResp := ⟨400, Json.obj [("error", Json.str "missing_binance_keys")]⟩

/-- The 400 response for a missing `date` parameter. -/
def missingDateResp : HResp := ⟨400, Json.obj [("error", Json.str "missing_date")]⟩

/-- Body of an upstream-error passthrough response. -/
def binanceErrorBody (data : Json) : Json :=
  Json.obj [("error", Json.str "binance_error"), ("data", data)]

/-- The 500 response of a handler's catch-block (its `message` field, built
from the thrown value, is not modelled). -/
def proxyExceptionResp : HResp := ⟨500, Json.obj [("error", Json.str "proxy_exception")]⟩

/-! ## The aggregation loop of /hedge-volume -/

/-- One loop step's contribution: `Number(t.quoteQty || 0)`. -/
def quoteContribution (t : Json) : Option ℚ :=
  let v := t.get "quoteQty"
  if jsTruthy v then jsToNumberU v else some 0

/-- The whole aggregation for one side: start from `0`, add every record's
contribution when the parsed body is an array, otherwise keep `0`. -/
def aggVolume (v : Json) : Option ℚ :=
  match v with
  | Json.arr xs => xs.foldl (fun acc t => jsAdd acc (quoteContribution t)) (some 0)
  | _ => some 0

/-! ## Endpoint handlers

Each handler returns the response sent to the caller together with the
list of upstream calls it issued.  Upstream responses are passed in as
arguments (they are unused on paths that never reach the fetch). -/

/-- GET `/price` (spot ticker; public upstream call). -/
def priceHandler (cfg : Config) (r : Req) (u : UResp) : HResp × List Call :=
  if checkAuth cfg r then
    let symbol := (r.querySymbol.getD "BNBUSDT").toUpper
    let call : Call := ⟨"https://api.binance.com/api/v3/ticker/price",
      "symbol=".data ++ symbol.data, none⟩
    if u.ok then
      (⟨200, Json.obj [("type", Json.str "spot"), ("symbol", Json.str symbol),
        ("price", Json.num (jsToNumberU (u.body.get "price")))]⟩, [call])
    else (⟨u.status, binanceErrorBody u.body⟩, [call])
  else (unauthorizedResp, [])

/-- GET `/futures-price` (futures ticker; public upstream call). -/
def futuresPriceHandler (cfg : Config) (r : Req) (u : UResp) : HResp × List Call :=
  if checkAuth cfg r then
    let symbol := (r.querySymbol.getD "BNBUSDT").toUpper
    let call : Call := ⟨"https://fapi.binance.com/fapi/v1/ticker/price",
      "symbol=".data ++ symbol.data, none⟩
    if u.ok then
      (⟨200, Json.obj [("type", Json.str "futures"), ("symbol", Json.str symbol),
        ("price", Json.num (jsToNumberU (u.body.get "price")))]⟩, [call])
    else (⟨u.status, binanceErrorBody u.body⟩, [call])
  else (unauthorizedResp, [])

/-- Predicate of `(data.balances || []).find(b => b.asset === "BNB")`. -/
def isAssetBNB (b : Json) : Bool :=
  match b.get "asset" with
  | some (Json.str s) => s == "BNB"
  | _ => false

/-- Evaluation of `data.balances || []` with the subsequent `.find`:
a missing or falsy `balances` field acts as the empty list; a truthy
non-array value makes `.find` throw (`none`, leading to the 500 path). -/
def balancesList (body : Json) : Option (List Json) :=
  match body.get "balances" with
  | some (Json.arr xs) => some xs
  | v => if jsTruthy v then none else some []

/-- Field read in the style of `Number(bnb.free || 0)`. -/
def numFieldOrZero (b : Json) (k : String) : Option ℚ :=
  let v := b.get k
  if jsTruthy v then jsToNumberU v else some 0

/-- GET `/balance` (signed spot account query, filtered to the BNB asset). -/
def balanceHandler (cfg : Config) (r : Req) (now : Nat)
    (hmacF : List Char → String → String) (u : UResp) : HResp × List Call :=
  if checkAuth cfg r then
    if cfg.binanceApiKey = "" ∨ cfg.binanceApiSecret = "" then (missingKeysResp, [])
    else
      let qs := balanceQs now
      let call : Call := ⟨"https://api.binance.com/api/v3/account",
        signedQuery hmacF cfg.binanceApiSecret qs, some cfg.binanceApiKey⟩
      if u.ok then
        match balancesList u.body with
        | none => (proxyExceptionResp, [call])
        | some xs =>
          let bnb := (xs.find? isAssetBNB).getD
            (Json.obj [("free", Json.str "0"), ("locked", Json.str "0")])
          let free := numFieldOrZero bnb "free"
          let locked := numFieldOrZero bnb "locked"
          (⟨200, Json.obj [("asset", Json.str "BNB"), ("free", Json.num free),
            ("locked", Json.num locked), ("total", Json.num (jsAdd free locked))]⟩,
           [call])
      else (⟨u.status, binanceErrorBody u.body⟩, [call])
  else (unauthorizedResp, [])

/-- GET `/futures-balance` (signed futures balance query; raw passthrough). -/
def futuresBalanceHandler (cfg : Config) (r : Req) (now : Nat)
    (hmacF : List Char → String → String) (u : UResp) : HResp × List Call :=
  if checkAuth cfg r then
    if cfg.binanceApiKey = "" ∨ cfg.binanceApiSecret = "" then (missingKeysResp, [])
    else
      let qs := balanceQs now
      let call : Call := ⟨"https://fapi.binance.com/fapi/v2/balance",
        signedQuery hmacF cfg.binanceApiSecret qs, some cfg.binanceApiKey⟩
      if u.ok then (⟨200, Json.obj [("balances", u.body)]⟩, [call])
      else (⟨u.status, binanceErrorBody u.body⟩, [call])
  else (unauthorizedResp, [])

/-- GET `/hedge-volume`.  `rangeF` is the day-range resolver of the entry
point (`getDayRangeUTC` in src/index.js, `getDayRange tz` in
src/unnamed/part_000); `now1`/`now2` are the two `Date.now()` reads.
Neither upstream response's status is inspected. -/
def hedgeHandler (cfg : Config) (r : Req) (rangeF : String → DateRange)
    (now1 now2 : Nat) (hmacF : List Char → String → String)
    (uSpot uFut : UResp) : HResp × List Call :=
  if checkAuth cfg r then
    if cfg.binanceApiKey = "" ∨ cfg.binanceApiSecret = "" then (missingKeysResp, [])
    else
      match r.queryDate with
      | none => (missingDateResp, [])
      | some date =>
        if date = "" then (missingDateResp, [])
        else
          let range := rangeF date
          let spotQs := hedgeQs range now1
          let spotCall : Call := ⟨"https://api.binance.com/api/v3/myTrades",
            signedQuery hmacF cfg.binanceApiSecret spotQs, some cfg.binanceApiKey⟩
          let spotVolume := aggVolume uSpot.body
          let futQs := hedgeQs range now2
          let futCall : Call := ⟨"https://fapi.binance.com/fapi/v1/userTrades",
            signedQuery hmacF cfg.binanceApiSecret futQs, some cfg.binanceApiKey⟩
          let futuresVolume := aggVolume uFut.body
          (⟨200, Json.obj [("date", Json.str date),
            ("spotHedgeVolumeUSDT", Json.num (toFixed2Opt spotVolume)),
            ("futuresHedgeVolumeUSDT", Json.num (toFixed2Opt futuresVolume))]⟩,
           [spotCall, futCall])
  else (unauthorizedResp, [])

/-! ## Example values used in concrete evaluations -/

/-- A constant stand-in digest function for concrete evaluations. -/
def hmacConst : List Char → String → String := fun _ _ => "sig"

/-- Example configuration with all credentials set. -/
def cfgFull : Config := ⟨"pk", "bk", "bs", 8⟩

/-- Example configuration without exchange credentials. -/
def cfgNoKeys : Config := ⟨"pk", "", "", 8⟩

/-- An authorized request (matching header token) carrying a date. -/
def reqAuth (dateStr : Option String) : Req := ⟨some "pk", none, none, dateStr⟩

/-- A request with no caller-supplied token. -/
def reqNoKey : Req := ⟨none, none, none, none⟩

/-- A 200 upstream response with an empty trade list. -/
def uOkArr : UResp := ⟨200, Json.arr []⟩

/-- A non-success upstream response. -/
def uErr418 : UResp := ⟨418, Json.str "teapot"⟩

/-- A 200 upstream account response whose balances list is empty. -/
def uBalEmpty : UResp := ⟨200, Json.obj [("balances", Json.arr [])]⟩

/-- The trade list of the specification's aggregation example. -/
def tradesExample : List Json :=
  [Json.obj [("quoteQty", Json.str "10.5")],
   Json.obj [("quoteQty", Json.null)],
   Json.obj [("quoteQty", Json.str "2")]]

/-- A trade list with a truthy but unparseable quote quantity. -/
def tradesBad : List Json := [Json.obj [("quoteQty", Json.str "abc")]]

/-! ## Helper lemmas -/

theorem isDig_digitChar10 (n : Nat) : isDig (digitChar10 n) = true := by
  have h : n % 10 = 0 ∨ n % 10 = 1 ∨ n % 10 = 2 ∨ n % 10 = 3 ∨ n % 10 = 4 ∨
      n % 10 = 5 ∨ n % 10 = 6 ∨ n % 10 = 7 ∨ n % 10 = 8 ∨ n % 10 = 9 := by omega
  rcases h with h | h | h | h | h | h | h | h | h | h <;> simp only [digitChar10, h] <;> decide

theorem digitVal_digitChar10 (n : Nat) : digitVal (digitChar10 n) = n % 10 := by
  have h : n % 10 = 0 ∨ n % 10 = 1 ∨ n % 10 = 2 ∨ n % 10 = 3 ∨ n % 10 = 4 ∨
      n % 10 = 5 ∨ n % 10 = 6 ∨ n % 10 = 7 ∨ n % 10 = 8 ∨ n % 10 = 9 := by omega
  rcases h with h | h | h | h | h | h | h | h | h | h <;> simp only [digitChar10, h] <;> decide

theorem natDigitsAux_congr (n : Nat) : ∀ f1 f2, n < f1 → n < f2 →
    natDigitsAux f1 n = natDigitsAux f2 n := by
  induction n using Nat.strong_induction_on with
  | _ n ih =>
    intro f1 f2 h1 h2
    cases f1 with
    | zero => omega
    | succ g1 =>
      cases f2 with
      | zero => omega
      | succ g2 =>
        by_cases h : n < 10
        · simp [natDigitsAux, h]
        · simp only [natDigitsAux, if_neg h]
          rw [ih (n / 10) (by omega) g1 g2 (by omega) (by omega)]

theorem natDigits_small (n : Nat) (h : n < 10) : natDigits n = [digitChar10 n] := by
  simp [natDigits, natDigitsAux, h]

theorem natDigits_step (n : Nat) (h : ¬ n < 10) :
    natDigits n = natDigits (n / 10) ++ [digitChar10 (n % 10)] := by
  have e : natDigits n = natDigitsAux n (n / 10) ++ [digitChar10 (n % 10)] := if_neg h
  rw [e, show natDigits (n / 10) = natDigitsAux (n / 10 + 1) (n / 10) from rfl,
    natDigitsAux_congr (n / 10) n (n / 10 + 1) (by omega) (by omega)]

theorem padTwo_eq (n : Nat) (h : n ≤ 99) :
    padTwo n = [digitChar10 (n / 10), digitChar10 (n % 10)] := by
  by_cases h10 : n < 10
  · have h0 : n / 10 = 0 := by omega
    have hm : n % 10 = n := by omega
    simp [padTwo, natDigits_small n h10, h0, hm]
    decide
  · have hd : n / 10 < 10 := by omega
    simp [padTwo, natDigits_step n h10, natDigits_small _ hd]

theorem decVal_append_digit (l : List Char) (c : Char) :
    decVal (l ++ [c]) = decVal l * 10 + digitVal c := by
  simp [decVal, List.foldl_append]

theorem decVal_natDigits (n : Nat) : decVal (natDigits n) = n := by
  induction n using Nat.strong_induction_on with
  | _ n ih =>
    by_cases h : n < 10
    · rw [natDigits_small n h]
      simp [decVal, digitVal_digitChar10]
      omega
    · rw [natDigits_step n h, decVal_append_digit, ih (n / 10) (by omega),
        digitVal_digitChar10]
      omega

theorem natDigits_inj {a b : Nat} (h : natDigits a = natDigits b) : a = b := by
  have := congrArg decVal h
  simpa [decVal_natDigits] using this

theorem hasSub_append (s t n : List Char) (h : hasSub t n = true) :
    hasSub (s ++ t) n = true := by
  induction s with
  | nil => simpa using h
  | cons c cs ih =>
    simp only [List.cons_append, hasSub, Bool.or_eq_true]
    exact Or.inr ih

theorem parseDate10_append (cs t : List Char) (v : Nat × Nat × Nat) (rest : List Char)
    (h : parseDate10 cs = some (v, rest)) :
    parseDate10 (cs ++ t) = some (v, rest ++ t) := by
  rcases cs with _ | ⟨y1, _ | ⟨y2, _ | ⟨y3, _ | ⟨y4, _ | ⟨c1, _ | ⟨m1, _ | ⟨m2, _ | ⟨c2, _ | ⟨d1, _ | ⟨d2, r⟩⟩⟩⟩⟩⟩⟩⟩⟩⟩ <;>
    (try (simp [parseDate10] at h; done))
  simp only [parseDate10, List.cons_append] at h ⊢
  split at h
  · split at h
    · simp only [Option.some.injEq, Prod.mk.injEq] at h
      obtain ⟨hv, hr⟩ := h
      subst hv hr
      rw [if_pos (by assumption), if_pos (by assumption)]
    · exact absurd h (by simp)
  · exact absurd h (by simp)

theorem parseDate10_append_none (l t : List Char) (hlen : 10 ≤ l.length)
    (h : parseDate10 l = none) : parseDate10 (l ++ t) = none := by
  rcases l with _ | ⟨a1, _ | ⟨a2, _ | ⟨a3, _ | ⟨a4, _ | ⟨a5, _ | ⟨a6, _ | ⟨a7, _ | ⟨a8, _ | ⟨a9, _ | ⟨a10, r⟩⟩⟩⟩⟩⟩⟩⟩⟩⟩ <;>
    (try (simp at hlen; done))
  simp only [parseDate10, List.cons_append] at h ⊢
  split at h
  · split at h
    · exact absurd h (by simp)
    · rw [if_pos (by assumption), if_neg (by assumption)]
  · rw [if_neg (by assumption)]

theorem parseOffset_offsetChars (tz : ℚ) (h1 : tzHH tz ≤ 23) (h2 : tzMM tz ≤ 59) :
    parseOffset (offsetChars tz) = some (jsOffsetMs tz) := by
  have e1 : digitVal (digitChar10 (tzHH tz / 10)) * 10 +
      digitVal (digitChar10 (tzHH tz % 10)) = tzHH tz := by
    rw [digitVal_digitChar10, digitVal_digitChar10]
    omega
  have e2 : digitVal (digitChar10 (tzMM tz / 10)) * 10 +
      digitVal (digitChar10 (tzMM tz % 10)) = tzMM tz := by
    rw [digitVal_digitChar10, digitVal_digitChar10]
    omega
  unfold offsetChars jsOffsetMs
  rw [padTwo_eq _ (by omega), padTwo_eq _ (by omega)]
  simp only [List.cons_append, List.nil_append]
  by_cases hs : 0 ≤ tz
  · simp only [hs, if_true]
    simp only [parseOffset]
    rw [if_pos (by simp [isDig_digitChar10])]
    simp only [e1, e2]
    rw [if_pos ⟨h1, h2⟩]
    simp
  · simp only [hs, if_false]
    simp only [parseOffset]
    rw [if_pos (by simp [isDig_digitChar10])]
    simp only [e1, e2]
    rw [if_pos ⟨h1, h2⟩]
    simp

theorem parseTimePart_start (off : List Char) :
    parseTimePart ("00:00:00".data ++ off) = some ((0, 0, 0), off) := rfl

theorem parseTimePart_end (off : List Char) :
    parseTimePart ("23:59:59".data ++ off) = some ((23, 59, 59), off) := rfl

theorem parseOffset_Z : parseOffset ['Z'] = some 0 := rfl

theorem jsDateParse_valid_chunk (s : String) (y mo d : Nat) (tail : List Char)
    (th tm ts : Nat) (off : List Char) (offMs : Int)
    (hs : validYMD s = some (y, mo, d))
    (htime : parseTimePart tail = some ((th, tm, ts), off))
    (hoff : parseOffset off = some offMs) :
    jsDateParse (s.data ++ 'T' :: tail) = some (epochMs y mo d th tm ts - offMs) := by
  have hd : parseDate10 s.data = some ((y, mo, d), []) := by
    unfold validYMD at hs
    split at hs
    · rename_i v heq
      simp only [Option.some.injEq] at hs
      subst hs
      exact heq
    · exact absurd hs (by simp)
  have happ := parseDate10_append s.data ('T' :: tail) (y, mo, d) [] hd
  rw [List.nil_append] at happ
  unfold jsDateParse
  rw [happ]
  simp [htime, hoff]

theorem tzHH_8 : tzHH 8 = 8 := by
  rw [tzHH, abs_of_nonneg (by norm_num : (0:ℚ) ≤ 8)]
  norm_num
  decide

theorem tzMM_8 : tzMM 8 = 0 := by
  rw [tzMM, abs_of_nonneg (by norm_num : (0:ℚ) ≤ 8)]
  norm_num

theorem jsOffsetMs_8 : jsOffsetMs 8 = 28800000 := by
  rw [jsOffsetMs, tzHH_8, tzMM_8]
  norm_num

/-! ## Claim C1: the Day-Range Resolvers -/

/-- Claim C1 (amended).  For every string in valid `YYYY-MM-DD` form and
every configured offset whose hour/minute rendering is in range,
`getDayRange` (src/unnamed/part_000) returns the UTC epoch milliseconds of
`00:00:00` and `23:59:59` of that calendar date as observed in the
configured offset, while `getDayRangeUTC` (src/index.js) always
interprets the date as UTC (offset zero), ignoring any configured offset.
Both resolvers are pure functions of their arguments (determinism). -/
theorem claim1_day_range_resolver (s : String) (tz : ℚ) (y mo d : Nat)
    (hs : validYMD s = some (y, mo, d)) (h1 : tzHH tz ≤ 23) (h2 : tzMM tz ≤ 59) :
    getDayRange tz s =
      ⟨some (epochMs y mo d 0 0 0 - jsOffsetMs tz),
       some (epochMs y mo d 23 59 59 - jsOffsetMs tz)⟩ ∧
    getDayRangeUTC s =
      ⟨some (epochMs y mo d 0 0 0), some (epochMs y mo d 23 59 59)⟩ := by
  have ho := parseOffset_offsetChars tz h1 h2
  constructor
  · unfold getDayRange
    rw [jsDateParse_valid_chunk s y mo d _ 0 0 0 _ _ hs (parseTimePart_start _) ho,
        jsDateParse_valid_chunk s y mo d _ 23 59 59 _ _ hs (parseTimePart_end _) ho]
  · unfold getDayRangeUTC
    rw [jsDateParse_valid_chunk s y mo d _ 0 0 0 _ _ hs (parseTimePart_start _) parseOffset_Z,
        jsDateParse_valid_chunk s y mo d _ 23 59 59 _ _ hs (parseTimePart_end _) parseOffset_Z]
    simp

/-- Claim C1 witness: at date `2025-01-01` and the default offset `+8`,
`getDayRange` yields the `+08:00` day bounds and `getDayRangeUTC` the UTC
day bounds. -/
theorem claim1_day_range_witness :
    getDayRange 8 "2025-01-01" = ⟨some 1735660800000, some 1735747199000⟩ ∧
    getDayRangeUTC "2025-01-01" = ⟨some 1735689600000, some 1735775999000⟩ := by
  have h := claim1_day_range_resolver "2025-01-01" 8 2025 1 1 (by decide)
    (by rw [tzHH_8]; omega) (by rw [tzMM_8]; omega)
  rw [h.1, h.2, jsOffsetMs_8]
  constructor
  · decide
  · decide

/-- Claim C1 counterexample.  The claim as stated also covers
`getDayRangeUTC` with the configured default offset `+8:00`:
`getDayRangeUTC "2025-01-01"` would then have to start at the UTC instant
of `2025-01-01T00:00:00+08:00` (1735660800000); it actually starts at the
UTC instant of `2025-01-01T00:00:00Z` (1735689600000). -/
theorem claim1_day_range_counterexample :
    (getDayRangeUTC "2025-01-01").start = some 1735689600000 ∧
    jsDateParse "2025-01-01T00:00:00+08:00".data = some 1735660800000 ∧
    (some (1735689600000 : Int) ≠ some (1735660800000 : Int)) := by
  refine ⟨by decide, by decide, by decide⟩

/-! ## Claim C7: invalid date strings -/

/-- Claim C7 (evaluation of the code's actual behaviour).  For every date
string whose characters do not start with a calendar-valid `YYYY-MM-DD`
(and that is at least 10 characters long), both resolvers silently return
`{start := NaN, end := NaN}` — no invalid-range error is surfaced
anywhere. -/
theorem claim7_invalid_date_nan (s : String) (tz : ℚ) (h10 : 10 ≤ s.data.length)
    (hbad : parseDate10 s.data = none) :
    getDayRange tz s = ⟨none, none⟩ ∧ getDayRangeUTC s = ⟨none, none⟩ := by
  have key : ∀ t : List Char, jsDateParse (s.data ++ t) = none := by
    intro t
    unfold jsDateParse
    rw [parseDate10_append_none s.data t h10 hbad]
  constructor
  · unfold getDayRange
    rw [key, key]
  · unfold getDayRangeUTC
    rw [key, key]

/-- Claim C7 witness: the invalid date `2025-13-01` yields NaN bounds. -/
theorem claim7_invalid_date_nan_witness :
    getDayRange 8 "2025-13-01" = ⟨none, none⟩ ∧
    getDayRangeUTC "2025-13-01" = ⟨none, none⟩ :=
  claim7_invalid_date_nan "2025-13-01" 8 (by decide) (by decide)

/-- Claim C7 counterexample.  On the invalid date `2025-13-01` the
hedge-volume handler does not surface any invalid-range error: the
resolver silently returns NaN bounds, the handler still answers 200 and
issues both upstream calls, interpolating `NaN` into the signed query
string. -/
theorem claim7_invalid_date_counterexample :
    getDayRangeUTC "2025-13-01" = ⟨none, none⟩ ∧
    (hedgeHandler cfgFull (reqAuth (some "2025-13-01")) getDayRangeUTC 0 0 hmacConst
      uOkArr uOkArr).1.status = 200 ∧
    (hedgeHandler cfgFull (reqAuth (some "2025-13-01")) getDayRangeUTC 0 0 hmacConst
      uOkArr uOkArr).2.map Call.sentQuery =
      ["startTime=NaN&endTime=NaN&timestamp=0&signature=sig".data,
       "startTime=NaN&endTime=NaN&timestamp=0&signature=sig".data] := by
  refine ⟨by decide, by decide, by decide⟩

/-! ## Claim C2: hedge-volume aggregation -/

theorem jsAdd_foldl (xs : List Json) (cs : List ℚ) (init : ℚ)
    (h : xs.map quoteContribution = cs.map some) :
    xs.foldl (fun acc t => jsAdd acc (quoteContribution t)) (some init) =
      some (init + cs.sum) := by
  induction xs generalizing cs init with
  | nil =>
    cases cs with
    | nil => simp
    | cons c ct => simp at h
  | cons x xt ih =>
    cases cs with
    | nil => simp at h
    | cons c ct =>
      simp only [List.map_cons, List.cons.injEq] at h
      obtain ⟨hx, ht⟩ := h
      simp only [List.foldl_cons]
      rw [show jsAdd (some init) (quoteContribution x) = some (init + c) from by
        rw [hx]; rfl]
      rw [ih ct (init + c) ht, List.sum_cons]
      congr 1
      ring

/-- Claim C2 (amended).  Whenever every record's `quoteQty` contributes an
actual number (`Number(t.quoteQty || 0)` is not NaN — in particular a
missing or falsy field contributes zero), the aggregation loop returns
exactly the sum of the contributions and the reported figure is that sum
rounded to two decimal places; the loop is a total function (it cannot
throw).  A truthy unparseable `quoteQty` is *not* treated as zero: it
makes the whole sum NaN (see the counterexample). -/
theorem claim2_hedge_aggregation (xs : List Json) (cs : List ℚ)
    (h : xs.map quoteContribution = cs.map some) :
    aggVolume (Json.arr xs) = some cs.sum ∧
    toFixed2Opt (aggVolume (Json.arr xs)) = some (jsRound2 cs.sum) := by
  have e : aggVolume (Json.arr xs) = some cs.sum := by
    show xs.foldl (fun acc t => jsAdd acc (quoteContribution t)) (some 0) = some cs.sum
    rw [jsAdd_foldl xs cs 0 h, zero_add]
  exact ⟨e, by rw [e]; rfl⟩

/-- Claim C2 witness: the specification's example
`[{quoteQty:"10.5"},{quoteQty:null},{quoteQty:"2"}]` sums to 12.5 and is
reported as 12.5 after two-decimal rounding. -/
theorem claim2_hedge_aggregation_witness :
    aggVolume (Json.arr tradesExample) = some (25/2 : ℚ) ∧
    toFixed2Opt (aggVolume (Json.arr tradesExample)) = some (25/2 : ℚ) := by
  have e1 : quoteContribution (Json.obj [("quoteQty", Json.str "10.5")]) = some (21/2 : ℚ) := by
    rw [show quoteContribution (Json.obj [("quoteQty", Json.str "10.5")]) =
      (jsNumParse (trimChars "10.5".data)).map ratOfParts from rfl]
    rw [show jsNumParse (trimChars "10.5".data) = some (1, 10, 5, 1, 0) from by decide]
    show some (ratOfParts (1, 10, 5, 1, 0)) = some (21/2 : ℚ)
    rw [ratOfParts]
    norm_num
  have e2 : quoteContribution (Json.obj [("quoteQty", Json.null)]) = some (0 : ℚ) := rfl
  have e3 : quoteContribution (Json.obj [("quoteQty", Json.str "2")]) = some (2 : ℚ) := by
    rw [show quoteContribution (Json.obj [("quoteQty", Json.str "2")]) =
      (jsNumParse (trimChars "2".data)).map ratOfParts from rfl]
    rw [show jsNumParse (trimChars "2".data) = some (1, 2, 0, 0, 0) from by decide]
    show some (ratOfParts (1, 2, 0, 0, 0)) = some (2 : ℚ)
    rw [ratOfParts]
    norm_num
  have hsum : ([21/2, 0, 2] : List ℚ).sum = 25/2 := by
    simp [List.sum_cons, List.sum_nil]
    norm_num
  have h := claim2_hedge_aggregation tradesExample [21/2, 0, 2]
    (by simp only [tradesExample, List.map_cons, List.map_nil, e1, e2, e3])
  rw [hsum] at h
  refine ⟨h.1, ?_⟩
  rw [h.2]
  have : jsRound2 (25/2 : ℚ) = 25/2 := by
    rw [jsRound2]
    rw [show (25/2 : ℚ) * 100 + 1/2 = 2501/2 by norm_num]
    rw [show ⌊(2501/2 : ℚ)⌋ = 1250 from by
      rw [Int.floor_eq_iff]
      norm_num]
    norm_num
  rw [this]

/-- Claim C2 counterexample.  A record whose `quoteQty` is the truthy
unparseable string `"abc"` is not treated as zero: `Number("abc")` is NaN
and poisons the running total, so the aggregate is NaN rather than the 0
the claim requires. -/
theorem claim2_hedge_aggregation_counterexample :
    aggVolume (Json.arr tradesBad) = none ∧ (none : Option ℚ) ≠ some 0 := by
  refine ⟨rfl, by simp⟩

/-! ## Claim C3: signed query construction -/

/-- Claim C3 (amended).  Every signed query string embeds a fresh
`timestamp=<Date.now()>` and its signature is the digest of exactly that
query string, recomputed per call and appended as `&signature=`;
the balance queries embed the fixed tolerance `recvWindow=5000`, but the
two hedge-volume trade queries carry only `startTime`, `endTime` and
`timestamp` — no receive-window parameter at all.  Distinct timestamps
yield distinct query strings (and hence distinct signed messages). -/
theorem claim3_signed_queries (now now' : Nat) (r : DateRange) (secret : String)
    (hmacF : List Char → String → String) :
    hasSub (balanceQs now) "recvWindow=5000".data = true ∧
    hasSub (balanceQs now) "timestamp=".data = true ∧
    hasSub (hedgeQs r now) "timestamp=".data = true ∧
    balanceQs now = serializeQs (balancePairs now) ∧
    hedgeQs r now = serializeQs (hedgePairs r now) ∧
    ((hedgePairs r now).map Prod.fst).contains "recvWindow" = false ∧
    signedQuery hmacF secret (balanceQs now) =
      balanceQs now ++ "&signature=".data ++ (hmacF (balanceQs now) secret).data ∧
    signedQuery hmacF secret (hedgeQs r now) =
      hedgeQs r now ++ "&signature=".data ++ (hmacF (hedgeQs r now) secret).data ∧
    (now ≠ now' → balanceQs now ≠ balanceQs now' ∧ hedgeQs r now ≠ hedgeQs r now') := by
  refine ⟨rfl, rfl, ?_, rfl, ?_, rfl, rfl, rfl, ?_⟩
  · have base : hasSub ("&timestamp=".data ++ natDigits now) "timestamp=".data = true := rfl
    show hasSub ("startTime=".data ++ numChars r.start ++ "&endTime=".data ++
      numChars r.endMs ++ "&timestamp=".data ++ natDigits now) "timestamp=".data = true
    simp only [List.append_assoc]
    exact hasSub_append _ _ _ (hasSub_append _ _ _ (hasSub_append _ _ _
      (hasSub_append _ _ _ base)))
  · rw [show serializeQs (hedgePairs r now) = "startTime=".data ++ (numChars r.start ++
      ("&endTime=".data ++ (numChars r.endMs ++ ("&timestamp=".data ++ natDigits now))))
      from rfl]
    show "startTime=".data ++ numChars r.start ++ "&endTime=".data ++
      numChars r.endMs ++ "&timestamp=".data ++ natDigits now = _
    simp [List.append_assoc]
  · intro hne
    constructor
    · intro he
      exact hne (natDigits_inj (List.append_cancel_left he))
    · intro he
      apply hne
      apply natDigits_inj
      simp only [hedgeQs, List.append_assoc] at he
      exact List.append_cancel_left (List.append_cancel_left (List.append_cancel_left
        (List.append_cancel_left (List.append_cancel_left he))))

/-- Claim C3 witness: concrete instances of the signed-query properties. -/
theorem claim3_signed_queries_witness :
    hasSub (balanceQs 1735660800000) "recvWindow=5000".data = true ∧
    hasSub (hedgeQs ⟨some 100, some 200⟩ 1735660800000) "timestamp=".data = true ∧
    (1735660800000 ≠ 1735660800001 →
      balanceQs 1735660800000 ≠ balanceQs 1735660800001 ∧
      hedgeQs ⟨some 100, some 200⟩ 1735660800000 ≠
        hedgeQs ⟨some 100, some 200⟩ 1735660800001) := by
  have h := claim3_signed_queries 1735660800000 1735660800001 ⟨some 100, some 200⟩
    "secret" hmacConst
  exact ⟨h.1, h.2.2.1, h.2.2.2.2.2.2.2.2⟩

/-- Claim C3 counterexample.  The signed query string of the hedge-volume
spot-trades call contains no receive-window parameter, contradicting the
claim that every signed call embeds a fixed receive-window tolerance. -/
theorem claim3_signed_queries_counterexample :
    hedgeQs ⟨some 100, some 200⟩ 300 = "startTime=100&endTime=200&timestamp=300".data ∧
    hasSub "startTime=100&endTime=200&timestamp=300".data "recvWindow".data = false := by
  refine ⟨by decide, by decide⟩

/-! ## Claim C5: the Authenticator gates all five operations -/

/-- Claim C5.  `checkAuth` authorizes exactly when the configured proxy
credential is non-empty and the caller-supplied token (header
`X-Proxy-Key`, falling back to the `key` query parameter) equals it; in
every other case each of the five handlers answers the terminal 401
`{error:"Unauthorized"}` and issues no upstream call. -/
theorem claim5_authenticator (cfg : Config) (r : Req) (u : UResp) (now n1 n2 : Nat)
    (hmacF : List Char → String → String) (uSpot uFut : UResp)
    (rangeF : String → DateRange) :
    (checkAuth cfg r = true ↔
      (cfg.proxyApiKey ≠ "" ∧ effectiveKey r = some cfg.proxyApiKey)) ∧
    (checkAuth cfg r = false →
      priceHandler cfg r u = (unauthorizedResp, []) ∧
      futuresPriceHandler cfg r u = (unauthorizedResp, []) ∧
      balanceHandler cfg r now hmacF u = (unauthorizedResp, []) ∧
      futuresBalanceHandler cfg r now hmacF u = (unauthorizedResp, []) ∧
      hedgeHandler cfg r rangeF n1 n2 hmacF uSpot uFut = (unauthorizedResp, [])) := by
  constructor
  · simp [checkAuth]
  · intro hf
    refine ⟨?_, ?_, ?_, ?_, ?_⟩ <;>
      simp [priceHandler, futuresPriceHandler, balanceHandler, futuresBalanceHandler,
        hedgeHandler, hf]

/-- Claim C5 witness: a request with no token at all is rejected by every
handler with 401 and no upstream call. -/
theorem claim5_authenticator_witness :
    checkAuth cfgFull reqNoKey = false ∧
    priceHandler cfgFull reqNoKey uOkArr = (unauthorizedResp, []) ∧
    balanceHandler cfgFull reqNoKey 0 hmacConst uOkArr = (unauthorizedResp, []) ∧
    hedgeHandler cfgFull reqNoKey getDayRangeUTC 0 0 hmacConst uOkArr uOkArr =
      (unauthorizedResp, []) := by
  have h := (claim5_authenticator cfgFull reqNoKey uOkArr 0 0 0 hmacConst uOkArr uOkArr
    getDayRangeUTC).2 (by decide)
  exact ⟨by decide, h.1, h.2.2.1, h.2.2.2.2⟩

/-! ## Claim C4: upstream error passthrough -/

/-- Claim C4 (amended).  The two price handlers and the two balance
handlers relay a non-success upstream response verbatim: same status code,
body `{error:"binance_error", data:<upstream body>}`.  The hedge-volume
handler is the exception the claim overlooks: it never inspects the
upstream status and still answers 200. -/
theorem claim4_upstream_error_relay (cfg : Config) (r : Req) (u : UResp)
    (now n1 n2 : Nat) (hmacF : List Char → String → String) (uFut : UResp)
    (rangeF : String → DateRange) (d : String)
    (hauth : checkAuth cfg r = true)
    (hk1 : cfg.binanceApiKey ≠ "") (hk2 : cfg.binanceApiSecret ≠ "")
    (hnok : u.ok = false)
    (hdate : r.queryDate = some d) (hd : d ≠ "") :
    (priceHandler cfg r u).1 = ⟨u.status, binanceErrorBody u.body⟩ ∧
    (futuresPriceHandler cfg r u).1 = ⟨u.status, binanceErrorBody u.body⟩ ∧
    (balanceHandler cfg r now hmacF u).1 = ⟨u.status, binanceErrorBody u.body⟩ ∧
    (futuresBalanceHandler cfg r now hmacF u).1 = ⟨u.status, binanceErrorBody u.body⟩ ∧
    (hedgeHandler cfg r rangeF n1 n2 hmacF u uFut).1.status = 200 := by
  have hks : ¬ (cfg.binanceApiKey = "" ∨ cfg.binanceApiSecret = "") :=
    not_or.mpr ⟨hk1, hk2⟩
  refine ⟨?_, ?_, ?_, ?_, ?_⟩ <;>
    simp [priceHandler, futuresPriceHandler, balanceHandler, futuresBalanceHandler,
      hedgeHandler, hauth, hnok, hks, hdate, hd]

/-- Claim C4 witness: a 418 upstream response is relayed by `/price` and
ignored by `/hedge-volume`. -/
theorem claim4_upstream_error_relay_witness :
    (priceHandler cfgFull (reqAuth (some "2025-01-01")) uErr418).1 =
      ⟨418, binanceErrorBody (Json.str "teapot")⟩ ∧
    (hedgeHandler cfgFull (reqAuth (some "2025-01-01")) getDayRangeUTC 0 0 hmacConst
      uErr418 uOkArr).1.status = 200 := by
  have h := claim4_upstream_error_relay cfgFull (reqAuth (some "2025-01-01")) uErr418
    0 0 0 hmacConst uOkArr getDayRangeUTC "2025-01-01" (by decide) (by decide)
    (by decide) (by decide) rfl (by decide)
  exact ⟨h.1, h.2.2.2.2⟩

/-- Claim C4 counterexample.  The hedge-volume handler does not relay the
non-success status of its upstream trade response: with the spot side
answering 418, the proxy still replies 200. -/
theorem claim4_upstream_error_relay_counterexample :
    uErr418.ok = false ∧
    (hedgeHandler cfgFull (reqAuth (some "2025-01-01")) getDayRangeUTC 0 0 hmacConst
      uErr418 uOkArr).1.status = 200 ∧
    (200 : Nat) ≠ 418 := by
  refine ⟨by decide, by decide, by decide⟩

/-! ## Claim C6: a non-list upstream body aggregates to zero -/

/-- Claim C6.  If an upstream trade-history body is not an array, the
aggregation for that side yields exactly 0 (no exception — the model is a
total function), and the hedge-volume request still succeeds with a 200
whose `spotHedgeVolumeUSDT` is the number 0. -/
theorem claim6_nonlist_side_is_zero (cfg : Config) (r : Req)
    (rangeF : String → DateRange) (n1 n2 : Nat)
    (hmacF : List Char → String → String) (uSpot uFut : UResp) (d : String)
    (hv : uSpot.body.isArr = false)
    (hauth : checkAuth cfg r = true)
    (hk1 : cfg.binanceApiKey ≠ "") (hk2 : cfg.binanceApiSecret ≠ "")
    (hdate : r.queryDate = some d) (hd : d ≠ "") :
    aggVolume uSpot.body = some 0 ∧
    (hedgeHandler cfg r rangeF n1 n2 hmacF uSpot uFut).1.status = 200 ∧
    (hedgeHandler cfg r rangeF n1 n2 hmacF uSpot uFut).1.body.get
      "spotHedgeVolumeUSDT" = some (Json.num (some 0)) := by
  have hks : ¬ (cfg.binanceApiKey = "" ∨ cfg.binanceApiSecret = "") :=
    not_or.mpr ⟨hk1, hk2⟩
  have h0 : aggVolume uSpot.body = some 0 := by
    cases hb : uSpot.body <;> simp_all [aggVolume, Json.isArr]
  have hfix : toFixed2Opt (aggVolume uSpot.body) = some (0 : ℚ) := by
    rw [h0]
    show some (jsRound2 0) = some (0 : ℚ)
    rw [jsRound2]
    rw [show (0 : ℚ) * 100 + 1/2 = 1/2 by norm_num]
    rw [show ⌊(1/2 : ℚ)⌋ = 0 from by rw [Int.floor_eq_iff]; norm_num]
    norm_num
  refine ⟨h0, ?_, ?_⟩ <;>
    simp [hedgeHandler, hauth, hks, hdate, hd, hfix, Json.get, lookupField]

/-- Claim C6 witness: an upstream error object (non-list) on the spot side
yields a 200 hedge-volume response reporting zero spot volume. -/
theorem claim6_nonlist_side_is_zero_witness :
    aggVolume uErr418.body = some 0 ∧
    (hedgeHandler cfgFull (reqAuth (some "2025-01-01")) getDayRangeUTC 0 0 hmacConst
      uErr418 uOkArr).1.status = 200 ∧
    (hedgeHandler cfgFull (reqAuth (some "2025-01-01")) getDayRangeUTC 0 0 hmacConst
      uErr418 uOkArr).1.body.get "spotHedgeVolumeUSDT" = some (Json.num (some 0)) :=
  claim6_nonlist_side_is_zero cfgFull (reqAuth (some "2025-01-01")) getDayRangeUTC
    0 0 hmacConst uErr418 uOkArr "2025-01-01" (by decide) (by decide) (by decide)
    (by decide) rfl (by decide)

/-! ## Claim C8: absent exchange credentials -/

/-- Claim C8.  With either exchange credential empty, the three signed
operations answer the terminal 400 `{error:"missing_binance_keys"}` before
any upstream call, while the two public price lookups still issue their
single upstream call. -/
theorem claim8_missing_exchange_keys (cfg : Config) (r : Req) (u : UResp)
    (now n1 n2 : Nat) (hmacF : List Char → String → String) (uSpot uFut : UResp)
    (rangeF : String → DateRange)
    (hauth : checkAuth cfg r = true)
    (hk : cfg.binanceApiKey = "" ∨ cfg.binanceApiSecret = "") :
    balanceHandler cfg r now hmacF u = (missingKeysResp, []) ∧
    futuresBalanceHandler cfg r now hmacF u = (missingKeysResp, []) ∧
    hedgeHandler cfg r rangeF n1 n2 hmacF uSpot uFut = (missingKeysResp, []) ∧
    (priceHandler cfg r u).2.length = 1 ∧
    (futuresPriceHandler cfg r u).2.length = 1 := by
  refine ⟨?_, ?_, ?_, ?_, ?_⟩
  · simp [balanceHandler, hauth, hk]
  · simp [futuresBalanceHandler, hauth, hk]
  · simp [hedgeHandler, hauth, hk]
  · by_cases ho : u.ok <;> simp [priceHandler, hauth, ho]
  · by_cases ho : u.ok <;> simp [futuresPriceHandler, hauth, ho]

/-- Claim C8 witness: with empty exchange credentials, `/balance` and
`/hedge-volume` answer 400 missing keys without upstream calls and
`/price` still calls upstream. -/
theorem claim8_missing_exchange_keys_witness :
    balanceHandler cfgNoKeys (reqAuth none) 0 hmacConst uOkArr = (missingKeysResp, []) ∧
    hedgeHandler cfgNoKeys (reqAuth none) getDayRangeUTC 0 0 hmacConst uOkArr uOkArr =
      (missingKeysResp, []) ∧
    (priceHandler cfgNoKeys (reqAuth none) uOkArr).2.length = 1 := by
  have h := claim8_missing_exchange_keys cfgNoKeys (reqAuth none) uOkArr 0 0 0
    hmacConst uOkArr uOkArr getDayRangeUTC (by decide) (Or.inl (by decide))
  exact ⟨h.1, h.2.2.1, h.2.2.2.1⟩

/-! ## Claim C9: missing date parameter -/

/-- Claim C9.  An authenticated hedge-volume request with configured
exchange credentials but no `date` query parameter answers the terminal
400 `{error:"missing_date"}` and issues no upstream call. -/
theorem claim9_missing_date (cfg : Config) (r : Req)
    (rangeF : String → DateRange) (n1 n2 : Nat)
    (hmacF : List Char → String → String) (uSpot uFut : UResp)
    (hauth : checkAuth cfg r = true)
    (hk1 : cfg.binanceApiKey ≠ "") (hk2 : cfg.binanceApiSecret ≠ "")
    (hdate : r.queryDate = none) :
    hedgeHandler cfg r rangeF n1 n2 hmacF uSpot uFut = (missingDateResp, []) := by
  have hks : ¬ (cfg.binanceApiKey = "" ∨ cfg.binanceApiSecret = "") :=
    not_or.mpr ⟨hk1, hk2⟩
  simp [hedgeHandler, hauth, hks, hdate]

/-- Claim C9 witness: the dateless request at full configuration. -/
theorem claim9_missing_date_witness :
    hedgeHandler cfgFull (reqAuth none) getDayRangeUTC 0 0 hmacConst uOkArr uOkArr =
      (missingDateResp, []) :=
  claim9_missing_date cfgFull (reqAuth none) getDayRangeUTC 0 0 hmacConst uOkArr uOkArr
    (by decide) (by decide) (by decide) rfl

/-! ## Claim C10: /balance response shape -/

/-- Claim C10.  On a successful upstream account response the `/balance`
body always satisfies `total = free + locked` (the `total` field is
computed as the sum of the reported `free` and `locked` numbers), and when
the account data has no usable balances entry for `BNB` — an empty or
missing list, or a list without a `"BNB"` asset — the response is exactly
`{asset:"BNB", free:0, locked:0, total:0}` with status 200, not an
error. -/
theorem claim10_balance_shape (cfg : Config) (r : Req) (now : Nat)
    (hmacF : List Char → String → String) (u : UResp) (xs : List Json)
    (hauth : checkAuth cfg r = true)
    (hk1 : cfg.binanceApiKey ≠ "") (hk2 : cfg.binanceApiSecret ≠ "")
    (hok : u.ok = true) (hbl : balancesList u.body = some xs) :
    (∃ f l, (balanceHandler cfg r now hmacF u).1 =
      ⟨200, Json.obj [("asset", Json.str "BNB"), ("free", Json.num f),
        ("locked", Json.num l), ("total", Json.num (jsAdd f l))]⟩) ∧
    ((∀ b ∈ xs, isAssetBNB b = false) →
      (balanceHandler cfg r now hmacF u).1 =
        ⟨200, Json.obj [("asset", Json.str "BNB"), ("free", Json.num (some 0)),
          ("locked", Json.num (some 0)), ("total", Json.num (some 0))]⟩) := by
  have hks : ¬ (cfg.binanceApiKey = "" ∨ cfg.binanceApiSecret = "") :=
    not_or.mpr ⟨hk1, hk2⟩
  constructor
  · refine ⟨numFieldOrZero ((xs.find? isAssetBNB).getD
      (Json.obj [("free", Json.str "0"), ("locked", Json.str "0")])) "free",
      numFieldOrZero ((xs.find? isAssetBNB).getD
      (Json.obj [("free", Json.str "0"), ("locked", Json.str "0")])) "locked", ?_⟩
    simp [balanceHandler, hauth, hks, hok, hbl]
  · intro hnone
    have hfind : xs.find? isAssetBNB = none :=
      List.find?_eq_none.mpr (fun b hb => by simp [hnone b hb])
    have hz : numFieldOrZero (Json.obj [("free", Json.str "0"), ("locked", Json.str "0")])
        "free" = some (0 : ℚ) := by
      rw [show numFieldOrZero (Json.obj [("free", Json.str "0"),
        ("locked", Json.str "0")]) "free" =
        (jsNumParse (trimChars "0".data)).map ratOfParts from rfl]
      rw [show jsNumParse (trimChars "0".data) = some (1, 0, 0, 0, 0) from by decide]
      show some (ratOfParts (1, 0, 0, 0, 0)) = some (0 : ℚ)
      rw [ratOfParts]
      norm_num
    have hz2 : numFieldOrZero (Json.obj [("free", Json.str "0"),
        ("locked", Json.str "0")]) "locked" = some (0 : ℚ) := by
      rw [show numFieldOrZero (Json.obj [("free", Json.str "0"),
        ("locked", Json.str "0")]) "locked" =
        (jsNumParse (trimChars "0".data)).map ratOfParts from rfl]
      rw [show jsNumParse (trimChars "0".data) = some (1, 0, 0, 0, 0) from by decide]
      show some (ratOfParts (1, 0, 0, 0, 0)) = some (0 : ℚ)
      rw [ratOfParts]
      norm_num
    have hadd : jsAdd (some (0 : ℚ)) (some (0 : ℚ)) = some (0 : ℚ) := by
      show some ((0 : ℚ) + 0) = some (0 : ℚ)
      norm_num
    simp [balanceHandler, hauth, hks, hok, hbl, hfind, hz, hz2, hadd]

/-- Claim C10 witness: an account response with an empty balances list
yields exactly the zero BNB balance object. -/
theorem claim10_balance_shape_witness :
    (balanceHandler cfgFull (reqAuth none) 0 hmacConst uBalEmpty).1 =
      ⟨200, Json.obj [("asset", Json.str "BNB"), ("free", Json.num (some 0)),
        ("locked", Json.num (some 0)), ("total", Json.num (some 0))]⟩ := by
  have h := (claim10_balance_shape cfgFull (reqAuth none) 0 hmacConst uBalEmpty []
    (by decide) (by decide) (by decide) (by decide) rfl).2 (by simp)
  exact h
